import Mathlib

/-!
Shallow embedding of the MM010/NRC banknote-dispenser serial driver
(`mm010_nrc_api.go`).  The serial port is modelled as a list of read
results (each read returns a chunk of bytes or a transport error; an
exhausted list yields zero-byte reads, matching a transport read
timeout) together with a log of the byte sequences written.  Bytes are
natural numbers; wrapping byte arithmetic is explicit `% 256`.
Go runtime panics (out-of-range index or slice) are a distinct
`Outcome.panic` value, so partial operations of the source stay total
here while the panic is still observable.
-/

/-- Frame marker constants from the source. -/
def RequestStart : Nat := 0x04

/-- Response frame start marker. -/
def ResponseStart : Nat := 0x01

/-- Device / communication identify byte. -/
def CommunicationIdentify : Nat := 0x30

/-- Text start marker. -/
def TextStart : Nat := 0x02

/-- Text end marker. -/
def TextEnd : Nat := 0x03

/-- Error taxonomy: one constructor per error site in the source
(`errors.New` / `fmt.Errorf`), named as in the spec's taxonomy. -/
inductive MMError where
  | ConnectionClosed
  | RetryExhausted
  | IoError
  | FormatError
  | ChecksumError
  | ResponseNotAck
  | ResponseNotEot
  | IllegalCommand
  deriving DecidableEq

/-- Result of one transport read: a chunk of bytes (possibly empty,
as on a read timeout) or a transport error. -/
inductive ReadResult where
  | chunk (bs : List Nat)
  | ioErr
  deriving DecidableEq

/-- The dispenser connection state visible to the embedding: the Go
`MMDispenser.open` flag, the incoming byte stream and the write log.
(`open` is a Lean keyword, hence `isOpen`.) -/
structure DState where
  isOpen : Bool
  reads  : List ReadResult
  writes : List (List Nat)
  deriving DecidableEq

/-- Outcome of an operation: a value, a returned error, or a Go
runtime panic (out-of-range index / slice). -/
inductive Outcome (α : Type) where
  | ok (a : α)
  | err (e : MMError)
  | panic
  deriving DecidableEq

/-- One blocking read from the port.  An exhausted stream keeps
returning zero-byte chunks (the transport's own read timeout). -/
def portRead (reads : List ReadResult) : ReadResult × List ReadResult :=
  match reads with
  | [] => (.chunk [], [])
  | r :: rs => (r, rs)

/-- `maxReadCount` from the source: the retry ceiling of both
byte-accumulation loops. -/
def maxReadCount : Nat := 1050

/-- XOR-fold checksum (`getChecksum`). -/
def getChecksum (data : List Nat) : Nat :=
  data.foldl (fun chksum b => chksum ^^^ b) 0

/-- The accumulation loop of `readRespCode`: `readTriesCount` is
incremented and checked against `maxReadCount` before each read, so
`fuel` counts the reads still allowed (`maxReadCount - 1` initially);
the loop exits once at least one byte has accumulated. -/
def readRespCodeLoop : Nat → List Nat → List ReadResult →
    Outcome (List Nat) × List ReadResult
  | 0, _, reads => (.err .RetryExhausted, reads)
  | fuel + 1, buf, reads =>
    match portRead reads with
    | (.ioErr, rest) => (.err .IoError, rest)
    | (.chunk bs, rest) =>
      let buf2 := buf ++ bs
      if buf2.length < 1 then readRespCodeLoop fuel buf2 rest
      else (.ok buf2, rest)

/-- `readRespCode`: accumulate at least one byte, then classify the
first byte as ACK / NAK / EOT / unrecognized. -/
def readRespCode (s : DState) : Outcome Nat × DState :=
  match readRespCodeLoop (maxReadCount - 1) [] s.reads with
  | (.err e, rest) => (.err e, { s with reads := rest })
  | (.panic, rest) => (.panic, { s with reads := rest })
  | (.ok buf, rest) =>
    let st : DState := { s with reads := rest }
    let b := buf.headD 0
    if b = 0x06 then (.ok 0x06, st)
    else if b = 0x15 then (.ok 0x15, st)
    else if b = 0x04 then (.ok 0x04, st)
    else (.ok 0x00, st)

/-- The accumulation loop of `readRespData`: exits once the buffer
has more than two bytes and its second-to-last byte is `TextEnd`. -/
def readRespDataLoop : Nat → List Nat → List ReadResult →
    Outcome (List Nat) × List ReadResult
  | 0, _, reads => (.err .RetryExhausted, reads)
  | fuel + 1, buf, reads =>
    match portRead reads with
    | (.ioErr, rest) => (.err .IoError, rest)
    | (.chunk bs, rest) =>
      let buf2 := buf ++ bs
      if 2 < buf2.length ∧ buf2.getD (buf2.length - 2) 0 = TextEnd
      then (.ok buf2, rest)
      else readRespDataLoop fuel buf2 rest

/-- The validation / extraction part of `readRespData` (source lines
518-543), applied to the accumulated buffer.  Each Go index or slice
whose bounds are not implied by the preceding checks maps to a `panic`
branch: `buf[2]` on the checksum-trimmed buffer, and the final
`buf[4 : len(buf)-1]` slice, which requires `4 ≤ len(buf)-1`. -/
def parseRespData (buf : List Nat) : Outcome (List Nat) :=
  match buf.get? 0, buf.get? 1 with
  | some b0, some b1 =>
    if b0 ≠ ResponseStart ∨ b1 ≠ CommunicationIdentify then .err .FormatError
    else
      let crc := buf.getLastD 0
      let buf2 := buf.dropLast
      let crc2 := getChecksum buf2
      if crc ≠ crc2 then .err .ChecksumError
      else
        match buf2.get? 2, buf2.getLast? with
        | some t2, some tl =>
          if t2 ≠ TextStart ∨ tl ≠ TextEnd then .err .FormatError
          else if 4 ≤ buf2.length - 1
          then .ok ((buf2.drop 4).take (buf2.length - 1 - 4))
          else .panic
        | _, _ => .panic
  | _, _ => .panic

/-- `readRespData`: run the accumulation loop, then validate and
extract the payload. -/
def readRespData (s : DState) : Outcome (List Nat) × DState :=
  match readRespDataLoop (maxReadCount - 1) [] s.reads with
  | (.err e, rest) => (.err e, { s with reads := rest })
  | (.panic, rest) => (.panic, { s with reads := rest })
  | (.ok buf, rest) => (parseRespData buf, { s with reads := rest })

/-- `Ack`: write the acknowledgment byte `0x06`; the write result is
discarded in the source, so this never fails. -/
def Ack (s : DState) : DState :=
  { s with writes := s.writes ++ [[0x06]] }

/-- `readResponse`: code byte (must be ACK), data frame, emit ACK,
code byte again (must be EOT).  The 200 ms sleep before returning has
no observable effect in this model. -/
def readResponse (s : DState) : Outcome (List Nat) × DState :=
  match readRespCode s with
  | (.err e, s1) => (.err e, s1)
  | (.panic, s1) => (.panic, s1)
  | (.ok resp, s1) =>
    if resp ≠ 0x06 then (.err .ResponseNotAck, s1)
    else
      match readRespData s1 with
      | (.err e, s2) => (.err e, s2)
      | (.panic, s2) => (.panic, s2)
      | (.ok data, s2) =>
        let s3 := Ack s2
        match readRespCode s3 with
        | (.err e, s4) => (.err e, s4)
        | (.panic, s4) => (.panic, s4)
        | (.ok resp2, s4) =>
          if resp2 ≠ 0x04 then (.err .ResponseNotEot, s4)
          else (.ok data, s4)

/-- `sendRequest`: fail if the connection is closed, otherwise build
`[RequestStart, CommunicationIdentify, TextStart, cmd] ++ data ++
[TextEnd]`, append the XOR checksum and write the frame.  Port write
errors are outside this model (writes always land in the log). -/
def sendRequest (s : DState) (commandCode : Nat)
    (bytesData : List (List Nat)) : Outcome Unit × DState :=
  if !s.isOpen then (.err .ConnectionClosed, s)
  else
    let buf := [RequestStart, CommunicationIdentify, TextStart, commandCode]
      ++ bytesData.flatten ++ [TextEnd]
    let frame := buf ++ [getChecksum buf]
    (.ok (), { s with writes := s.writes ++ [frame] })

/-- Wrapping byte subtraction: Go `byte` arithmetic `a - b`. -/
def bsub (a b : Nat) : Nat := (a + 256 - b) % 256

/-- Wrapping byte addition: Go `byte` arithmetic `a + b`. -/
def badd (a b : Nat) : Nat := (a + b) % 256

/-- The `Status` result record of the source (the Go struct is named
`Status`; renamed because the method of the same name is also embedded
at top level). -/
structure StatusRec where
  FeedSensorBlocked : Bool
  ExitSensorBlocked : Bool
  ResetSinceLastStatusMessage : Bool
  TimingWheelSensorBlocked : Bool
  CalibratingDoubleDetect : Bool
  AverageThickness : Nat
  AverageLength : Nat
  deriving DecidableEq

/-- Decode step of `Status` (source lines 161-167): fixed-offset
indexing of the payload, panicking when an index is out of range. -/
def statusDecode (response : List Nat) : Outcome StatusRec :=
  match response.get? 0, response.get? 1, response.get? 2, response.get? 3 with
  | some r0, some r1, some r2, some r3 =>
    .ok { FeedSensorBlocked := (r0 &&& (1 <<< 0)) != 0
          ExitSensorBlocked := (r0 &&& (1 <<< 1)) != 0
          ResetSinceLastStatusMessage := (r0 &&& (1 <<< 3)) != 0
          TimingWheelSensorBlocked := (r0 &&& (1 <<< 4)) != 0
          CalibratingDoubleDetect := (r1 &&& (1 <<< 4)) != 0
          AverageThickness := bsub r2 0x20
          AverageLength := bsub r3 0x20 }
  | _, _, _, _ => .panic

/-- Decode step of `Purge`: `(StatusCode(response[0]), response[1] - 0x20)`. -/
def purgeDecode (response : List Nat) : Outcome (Nat × Nat) :=
  match response.get? 0, response.get? 1 with
  | some r0, some r1 => .ok (r0, bsub r1 0x20)
  | _, _ => .panic

/-- Decode step shared by `Dispense`, `TestDispense`, `LastStatus`,
the diagnostics commands and the single-note commands:
`(StatusCode(response[0]), response[1] - 0x20, response[2] - 0x20)`. -/
def tripleDecode (response : List Nat) : Outcome (Nat × Nat × Nat) :=
  match response.get? 0, response.get? 1, response.get? 2 with
  | some r0, some r1, some r2 => .ok (r0, bsub r1 0x20, bsub r2 0x20)
  | _, _, _ => .panic

/-- Decode step of `ConfigurationStatus`:
`(response[0] - 0x20, response[1] - 0x20)`. -/
def configDecode (response : List Nat) : Outcome (Nat × Nat) :=
  match response.get? 0, response.get? 1 with
  | some r0, some r1 => .ok (bsub r0 0x20, bsub r1 0x20)
  | _, _ => .panic

/-- Decode step of `TestMode`: `StatusCode(response[0])`. -/
def testModeDecode (response : List Nat) : Outcome Nat :=
  match response.get? 0 with
  | some r0 => .ok r0
  | none => .panic

/-- Decode step of `ReadData`: the first payload byte must be the
acknowledged marker `0x30`, the rest is the textual result. -/
def readDataDecode (response : List Nat) : Outcome (List Nat) :=
  match response.get? 0 with
  | some r0 =>
    if r0 ≠ 0x30 then .err .IllegalCommand else .ok (response.drop 1)
  | none => .panic

/-- Decode step of `WriteData`: the first payload byte must be the
acknowledged marker `0x30`. -/
def writeDataDecode (response : List Nat) : Outcome Unit :=
  match response.get? 0 with
  | some r0 => if r0 ≠ 0x30 then .err .IllegalCommand else .ok ()
  | none => .panic

/-- Go `fmt.Sprintf` verb `%3d`: decimal digits of `n` (ASCII),
left-padded with spaces to a minimum width of three. -/
def pad3 (n : Nat) : List Nat :=
  let ds := (Nat.toDigits 10 n).map Char.toNat
  List.replicate (3 - ds.length) 0x20 ++ ds

/-- The `ReadData` payload text `"D/%3d"` plus `"/%s"` when a
parameter is given (`0x44 = 'D'`, `0x2F = '/'`). -/
def readDataPayload (item : Nat) (param : List Nat) : List Nat :=
  [0x44, 0x2F] ++ pad3 item ++ (if 0 < param.length then 0x2F :: param else [])

/-- The `WriteData` payload text `"D/%3d/%s"`. -/
def writeDataPayload (item : Nat) (data : List Nat) : List Nat :=
  [0x44, 0x2F] ++ pad3 item ++ [0x2F] ++ data

/-- `Status` command (code `0x40`). -/
def Status (s : DState) : Outcome StatusRec × DState :=
  match sendRequest s 0x40 [[]] with
  | (.err e, s1) => (.err e, s1)
  | (.panic, s1) => (.panic, s1)
  | (.ok _, s1) =>
    match readResponse s1 with
    | (.err e, s2) => (.err e, s2)
    | (.panic, s2) => (.panic, s2)
    | (.ok response, s2) => (statusDecode response, s2)

/-- `Purge` command (code `0x41`). -/
def Purge (s : DState) : Outcome (Nat × Nat) × DState :=
  match sendRequest s 0x41 [[]] with
  | (.err e, s1) => (.err e, s1)
  | (.panic, s1) => (.panic, s1)
  | (.ok _, s1) =>
    match readResponse s1 with
    | (.err e, s2) => (.err e, s2)
    | (.panic, s2) => (.panic, s2)
    | (.ok response, s2) => (purgeDecode response, s2)

/-- `Dispense` command (code `0x42`, count offset by `+0x20`). -/
def Dispense (s : DState) (count : Nat) : Outcome (Nat × Nat × Nat) × DState :=
  match sendRequest s 0x42 [[badd count 0x20]] with
  | (.err e, s1) => (.err e, s1)
  | (.panic, s1) => (.panic, s1)
  | (.ok _, s1) =>
    match readResponse s1 with
    | (.err e, s2) => (.err e, s2)
    | (.panic, s2) => (.panic, s2)
    | (.ok response, s2) => (tripleDecode response, s2)

/-- `TestDispense` command (code `0x43`). -/
def TestDispense (s : DState) (count : Nat) : Outcome (Nat × Nat × Nat) × DState :=
  match sendRequest s 0x43 [[badd count 0x20]] with
  | (.err e, s1) => (.err e, s1)
  | (.panic, s1) => (.panic, s1)
  | (.ok _, s1) =>
    match readResponse s1 with
    | (.err e, s2) => (.err e, s2)
    | (.panic, s2) => (.panic, s2)
    | (.ok response, s2) => (tripleDecode response, s2)

/-- `Reset` command (code `0x44`): sends the request, then reads a
single response code byte and returns only that read's error status —
no data frame, no acknowledgment, no EOT wait. -/
def Reset (s : DState) : Outcome Unit × DState :=
  match sendRequest s 0x44 [[]] with
  | (.err e, s1) => (.err e, s1)
  | (.panic, s1) => (.panic, s1)
  | (.ok _, s1) =>
    match readRespCode s1 with
    | (.err e, s2) => (.err e, s2)
    | (.panic, s2) => (.panic, s2)
    | (.ok _, s2) => (.ok (), s2)

/-- `LastStatus` command (code `0x45`). -/
def LastStatus (s : DState) : Outcome (Nat × Nat × Nat) × DState :=
  match sendRequest s 0x45 [[]] with
  | (.err e, s1) => (.err e, s1)
  | (.panic, s1) => (.panic, s1)
  | (.ok _, s1) =>
    match readResponse s1 with
    | (.err e, s2) => (.err e, s2)
    | (.panic, s2) => (.panic, s2)
    | (.ok response, s2) => (tripleDecode response, s2)

/-- `ConfigurationStatus` command (code `0x46`). -/
def ConfigurationStatus (s : DState) : Outcome (Nat × Nat) × DState :=
  match sendRequest s 0x46 [[]] with
  | (.err e, s1) => (.err e, s1)
  | (.panic, s1) => (.panic, s1)
  | (.ok _, s1) =>
    match readResponse s1 with
    | (.err e, s2) => (.err e, s2)
    | (.panic, s2) => (.panic, s2)
    | (.ok response, s2) => (configDecode response, s2)

/-- `DoubleDetectDiagnostics` command (code `0x47`). -/
def DoubleDetectDiagnostics (s : DState) : Outcome (Nat × Nat × Nat) × DState :=
  match sendRequest s 0x47 [[]] with
  | (.err e, s1) => (.err e, s1)
  | (.panic, s1) => (.panic, s1)
  | (.ok _, s1) =>
    match readResponse s1 with
    | (.err e, s2) => (.err e, s2)
    | (.panic, s2) => (.panic, s2)
    | (.ok response, s2) => (tripleDecode response, s2)

/-- `SensorDiagnostics` command (code `0x48`). -/
def SensorDiagnostics (s : DState) : Outcome (Nat × Nat × Nat) × DState :=
  match sendRequest s 0x48 [[]] with
  | (.err e, s1) => (.err e, s1)
  | (.panic, s1) => (.panic, s1)
  | (.ok _, s1) =>
    match readResponse s1 with
    | (.err e, s2) => (.err e, s2)
    | (.panic, s2) => (.panic, s2)
    | (.ok response, s2) => (tripleDecode response, s2)

/-- `SingleNoteDispense` command (code `0x4A`). -/
def SingleNoteDispense (s : DState) : Outcome (Nat × Nat × Nat) × DState :=
  match sendRequest s 0x4A [[]] with
  | (.err e, s1) => (.err e, s1)
  | (.panic, s1) => (.panic, s1)
  | (.ok _, s1) =>
    match readResponse s1 with
    | (.err e, s2) => (.err e, s2)
    | (.panic, s2) => (.panic, s2)
    | (.ok response, s2) => (tripleDecode response, s2)

/-- `SingleNoteEject` command (code `0x4B`). -/
def SingleNoteEject (s : DState) : Outcome (Nat × Nat × Nat) × DState :=
  match sendRequest s 0x4B [[]] with
  | (.err e, s1) => (.err e, s1)
  | (.panic, s1) => (.panic, s1)
  | (.ok _, s1) =>
    match readResponse s1 with
    | (.err e, s2) => (.err e, s2)
    | (.panic, s2) => (.panic, s2)
    | (.ok response, s2) => (tripleDecode response, s2)

/-- `TestMode` command (code `0x54`). -/
def TestMode (s : DState) : Outcome Nat × DState :=
  match sendRequest s 0x54 [[]] with
  | (.err e, s1) => (.err e, s1)
  | (.panic, s1) => (.panic, s1)
  | (.ok _, s1) =>
    match readResponse s1 with
    | (.err e, s2) => (.err e, s2)
    | (.panic, s2) => (.panic, s2)
    | (.ok response, s2) => (testModeDecode response, s2)

/-- `ReadData` command (code `0x52`).  The source discards the result
of `sendRequest` (line 350) and unconditionally proceeds to
`readResponse`; the embedding keeps only the state component of the
send, mirroring that. -/
def ReadData (s : DState) (item : Nat) (param : List Nat) :
    Outcome (List Nat) × DState :=
  let s1 := (sendRequest s 0x52 [readDataPayload item param]).2
  match readResponse s1 with
  | (.err e, s2) => (.err e, s2)
  | (.panic, s2) => (.panic, s2)
  | (.ok response, s2) => (readDataDecode response, s2)

/-- `WriteData` command (code `0x57`). -/
def WriteData (s : DState) (item : Nat) (data : List Nat) :
    Outcome Unit × DState :=
  match sendRequest s 0x57 [writeDataPayload item data] with
  | (.err e, s1) => (.err e, s1)
  | (.panic, s1) => (.panic, s1)
  | (.ok _, s1) =>
    match readResponse s1 with
    | (.err e, s2) => (.err e, s2)
    | (.panic, s2) => (.panic, s2)
    | (.ok response, s2) => (writeDataDecode response, s2)

/-- The spec's command shape: send the request, run the full response
cycle, decode the payload; any failure aborts the remaining steps.
Stated from the spec's words, to be compared with each embedded
operation. -/
def runCommand {α : Type} (s : DState) (code : Nat) (payload : List Nat)
    (decode : List Nat → Outcome α) : Outcome α × DState :=
  match sendRequest s code [payload] with
  | (.err e, s1) => (.err e, s1)
  | (.panic, s1) => (.panic, s1)
  | (.ok _, s1) =>
    match readResponse s1 with
    | (.err e, s2) => (.err e, s2)
    | (.panic, s2) => (.panic, s2)
    | (.ok response, s2) => (decode response, s2)

/-- The code-byte-only command shape actually used by `Reset`: send
the request, read one response code byte, return only that read's
error status (the code value itself is discarded unchecked). -/
def runCodeOnlyCommand (s : DState) (code : Nat) : Outcome Unit × DState :=
  match sendRequest s code [[]] with
  | (.err e, s1) => (.err e, s1)
  | (.panic, s1) => (.panic, s1)
  | (.ok _, s1) =>
    match readRespCode s1 with
    | (.err e, s2) => (.err e, s2)
    | (.panic, s2) => (.panic, s2)
    | (.ok _, s2) => (.ok (), s2)

/-- The payload as the spec describes it: the bytes of the
checksum-trimmed frame strictly between the TextStart marker at
offset 2 and the final TextEnd marker, exclusive of both markers.
Stated from the spec's words, to be compared with what
`parseRespData` returns. -/
def specStrictlyBetween (buf : List Nat) : List Nat :=
  ((buf.dropLast).drop 3).dropLast

/-- Taking all but one element of a nonempty list is `dropLast`. -/
theorem take_length_eq_dropLast (t : List Nat) (x : Nat) :
    (x :: t).take t.length = (x :: t).dropLast := by
  induction t generalizing x with
  | nil => rfl
  | cons y t' ih =>
    show x :: (y :: t').take t'.length = x :: (y :: t').dropLast
    rw [ih y]

/-- The Go slice `buf[4 : len(buf)-1]` equals the tail of the byte
range strictly between offset 3 and the last element. -/
theorem slice_four_take_eq (l : List Nat) :
    (l.drop 4).take (l.length - 1 - 4) = ((l.drop 3).dropLast).drop 1 := by
  match l with
  | [] => rfl
  | [_] => rfl
  | [_, _] => rfl
  | [_, _, _] => rfl
  | [_, _, _, _] => rfl
  | _ :: _ :: _ :: _ :: x :: t =>
    show (x :: t).take t.length = (x :: t).dropLast
    exact take_length_eq_dropLast t x

/-- On a stream of zero-byte reads the code loop spends all its fuel
and reports retry exhaustion. -/
theorem readRespCodeLoop_allEmpty (fuel : Nat) (reads : List ReadResult)
    (h : ∀ r ∈ reads, r = .chunk []) :
    ∃ rest, readRespCodeLoop fuel [] reads = (.err .RetryExhausted, rest) := by
  induction fuel generalizing reads with
  | zero => exact ⟨reads, rfl⟩
  | succ n ih =>
    cases reads with
    | nil => exact ih [] (by simp)
    | cons r rs =>
      have hr := h r (List.mem_cons_self r rs)
      subst hr
      exact ih rs (fun x hx => h x (List.mem_cons_of_mem _ hx))

/-- On a stream of zero-byte reads the data loop spends all its fuel
and reports retry exhaustion. -/
theorem readRespDataLoop_allEmpty (fuel : Nat) (reads : List ReadResult)
    (h : ∀ r ∈ reads, r = .chunk []) :
    ∃ rest, readRespDataLoop fuel [] reads = (.err .RetryExhausted, rest) := by
  induction fuel generalizing reads with
  | zero => exact ⟨reads, rfl⟩
  | succ n ih =>
    cases reads with
    | nil => exact ih [] (by simp)
    | cons r rs =>
      have hr := h r (List.mem_cons_self r rs)
      subst hr
      exact ih rs (fun x hx => h x (List.mem_cons_of_mem _ hx))

/-- Folding XOR from an arbitrary seed factors the seed out. -/
theorem foldl_xor_init (l : List Nat) (a : Nat) :
    l.foldl (fun chksum b => chksum ^^^ b) a =
      a ^^^ l.foldl (fun chksum b => chksum ^^^ b) 0 := by
  induction l generalizing a with
  | nil => simp
  | cons b t ih =>
    show t.foldl _ (a ^^^ b) = a ^^^ t.foldl _ (0 ^^^ b)
    rw [ih (a ^^^ b), ih (0 ^^^ b), Nat.zero_xor, Nat.xor_assoc]

/-- The checksum of a cons is the head XOR the checksum of the tail. -/
theorem getChecksum_cons (x : Nat) (t : List Nat) :
    getChecksum (x :: t) = x ^^^ getChecksum t := by
  unfold getChecksum
  show t.foldl _ (0 ^^^ x) = x ^^^ t.foldl _ 0
  rw [foldl_xor_init t (0 ^^^ x), Nat.zero_xor]

/-- Replacing one element of a list with a different value changes
the XOR checksum. -/
theorem getChecksum_set_ne (B : List Nat) (i b' : Nat)
    (hi : i < B.length) (hne : b' ≠ B.getD i 0) :
    getChecksum (B.set i b') ≠ getChecksum B := by
  induction B generalizing i with
  | nil => simp at hi
  | cons x t ih =>
    cases i with
    | zero =>
      simp only [List.getD_cons_zero] at hne
      show getChecksum (b' :: t) ≠ getChecksum (x :: t)
      rw [getChecksum_cons, getChecksum_cons]
      intro hcontra
      exact hne (Nat.xor_left_injective hcontra)
    | succ j =>
      simp only [List.getD_cons_succ] at hne
      show getChecksum (x :: t.set j b') ≠ getChecksum (x :: t)
      rw [getChecksum_cons, getChecksum_cons]
      intro hcontra
      exact ih j (Nat.lt_of_succ_lt_succ hi) hne (Nat.xor_right_inj.mp hcontra)

/-- Claim C1 (amended): for every buffer the parse operation accepts,
the returned payload is the byte range strictly between the TextStart
marker and the final TextEnd marker with its first byte (the byte at
offset 3, immediately after TextStart) additionally removed — the
source slices `buf[4 : len(buf)-1]`, not `buf[3 : len(buf)-1]`. -/
theorem parseRespData_payload_eq (buf p : List Nat)
    (h : parseRespData buf = .ok p) :
    p = (specStrictlyBetween buf).drop 1 := by
  simp only [parseRespData] at h
  repeat' split at h
  all_goals cases h
  rw [specStrictlyBetween]
  exact slice_four_take_eq buf.dropLast

/-- Witness for C1: the accepted frame `01 30 02 41 42 03 33` yields
payload `[0x42]`, the strictly-between range minus its first byte. -/
theorem parseRespData_payload_eq_witness :
    parseRespData [0x01, 0x30, 0x02, 0x41, 0x42, 0x03, 0x33] = .ok [0x42] ∧
    [0x42] =
      (specStrictlyBetween [0x01, 0x30, 0x02, 0x41, 0x42, 0x03, 0x33]).drop 1 :=
  ⟨by decide, parseRespData_payload_eq _ [0x42] (by decide)⟩

/-- Counterexample to C1 as stated: the accepted frame
`01 30 02 41 03 71` has `[0x41]` strictly between its TextStart and
TextEnd markers, yet the parse operation returns the empty payload. -/
theorem parseRespData_not_strictly_between :
    parseRespData [0x01, 0x30, 0x02, 0x41, 0x03, 0x71] = .ok [] ∧
    specStrictlyBetween [0x01, 0x30, 0x02, 0x41, 0x03, 0x71] = [0x41] ∧
    ([] : List Nat) ≠ [0x41] := by decide

/-- Claim C2 (amended): on an open connection, every command-surface
operation except `Reset` sends its request and then runs the full
response cycle (ACK code byte, data frame parse, acknowledgment
write, EOT code byte) before returning its decoded result, matching
the spec-side `runCommand` shape; `Reset` instead sends its request
and reads a single response code byte, returning only that read's
error status. -/
theorem commands_run_response_cycle (r : List ReadResult) (w : List (List Nat))
    (count item : Nat) (param dat : List Nat) :
    Status ⟨true, r, w⟩ = runCommand ⟨true, r, w⟩ 0x40 [] statusDecode ∧
    Purge ⟨true, r, w⟩ = runCommand ⟨true, r, w⟩ 0x41 [] purgeDecode ∧
    Dispense ⟨true, r, w⟩ count =
      runCommand ⟨true, r, w⟩ 0x42 [badd count 0x20] tripleDecode ∧
    TestDispense ⟨true, r, w⟩ count =
      runCommand ⟨true, r, w⟩ 0x43 [badd count 0x20] tripleDecode ∧
    LastStatus ⟨true, r, w⟩ = runCommand ⟨true, r, w⟩ 0x45 [] tripleDecode ∧
    ConfigurationStatus ⟨true, r, w⟩ =
      runCommand ⟨true, r, w⟩ 0x46 [] configDecode ∧
    DoubleDetectDiagnostics ⟨true, r, w⟩ =
      runCommand ⟨true, r, w⟩ 0x47 [] tripleDecode ∧
    SensorDiagnostics ⟨true, r, w⟩ =
      runCommand ⟨true, r, w⟩ 0x48 [] tripleDecode ∧
    SingleNoteDispense ⟨true, r, w⟩ =
      runCommand ⟨true, r, w⟩ 0x4A [] tripleDecode ∧
    SingleNoteEject ⟨true, r, w⟩ =
      runCommand ⟨true, r, w⟩ 0x4B [] tripleDecode ∧
    TestMode ⟨true, r, w⟩ = runCommand ⟨true, r, w⟩ 0x54 [] testModeDecode ∧
    ReadData ⟨true, r, w⟩ item param =
      runCommand ⟨true, r, w⟩ 0x52 (readDataPayload item param) readDataDecode ∧
    WriteData ⟨true, r, w⟩ item dat =
      runCommand ⟨true, r, w⟩ 0x57 (writeDataPayload item dat) writeDataDecode ∧
    Reset ⟨true, r, w⟩ = runCodeOnlyCommand ⟨true, r, w⟩ 0x44 :=
  ⟨rfl, rfl, rfl, rfl, rfl, rfl, rfl, rfl, rfl, rfl, rfl, rfl, rfl, rfl⟩

/-- Counterexample to C2 as stated: on a stream whose first code byte
is NACK, the full response cycle fails with ResponseNotAck, yet
`Reset` — after sending its request frame — returns success without
running that cycle: it accepts the NACK code byte unchecked. -/
theorem Reset_skips_response_cycle :
    Reset ⟨true, [.chunk [0x15]], []⟩ =
      (.ok (), ⟨true, [], [[0x04, 0x30, 0x02, 0x44, 0x03, 0x71]]⟩) ∧
    (readResponse ⟨true, [.chunk [0x15]],
        [[0x04, 0x30, 0x02, 0x44, 0x03, 0x71]]⟩).1 = .err .ResponseNotAck :=
  ⟨rfl, rfl⟩

/-- Claim C3 (code bug, evaluated at the failing input): `ReadData`
on a closed connection discards the connection-closed error from
`sendRequest` and proceeds to the response cycle, consuming transport
reads and returning a different error; every other operation — shown
here for `Status` and `WriteData` — fails fast with the
connection-closed error and performs no transport I/O. -/
theorem ReadData_swallows_closed_error :
    ReadData ⟨false, [.chunk [0x15]], []⟩ 100 [] =
      (.err .ResponseNotAck, ⟨false, [], []⟩) ∧
    (Outcome.err .ResponseNotAck : Outcome (List Nat)) ≠ .err .ConnectionClosed ∧
    Status ⟨false, [.chunk [0x15]], []⟩ =
      (.err .ConnectionClosed, ⟨false, [.chunk [0x15]], []⟩) ∧
    WriteData ⟨false, [.chunk [0x15]], []⟩ 100 [0x31] =
      (.err .ConnectionClosed, ⟨false, [.chunk [0x15]], []⟩) := by
  refine ⟨rfl, by decide, rfl, rfl⟩

/-- Claim C4: on an open connection `sendRequest` writes exactly
`[0x04, 0x30, 0x02, c] ++ p ++ [0x03, k]` with `k` the XOR-fold of
all preceding frame bytes, and `Dispense 1` writes the frame
`04 30 02 42 21 03` followed by `XOR(04, 30, 02, 42, 21, 03)`. -/
theorem sendRequest_frame_exact (c : Nat) (p : List Nat) (r : List ReadResult)
    (w : List (List Nat)) :
    (sendRequest ⟨true, r, w⟩ c [p]).2.writes =
      w ++ [[0x04, 0x30, 0x02, c] ++ p ++
        [0x03, ([0x04, 0x30, 0x02, c] ++ p ++ [0x03]).foldl
          (fun chksum b => chksum ^^^ b) 0]] ∧
    (sendRequest ⟨true, r, w⟩ c [p]).1 = .ok () ∧
    (Dispense ⟨true, [.chunk [0x15]], []⟩ 1).2.writes =
      [[0x04, 0x30, 0x02, 0x42, 0x21, 0x03,
        0x04 ^^^ 0x30 ^^^ 0x02 ^^^ 0x42 ^^^ 0x21 ^^^ 0x03]] := by
  refine ⟨?_, rfl, by decide⟩
  simp only [sendRequest, getChecksum, RequestStart, CommunicationIdentify,
    TextStart, TextEnd, List.flatten, Bool.not_true, if_neg]
  simp

/-- Claim C5: when the first code byte of the incoming stream is NACK
(`0x15`), the full response cycle fails with ResponseNotAck and
leaves the rest of the stream and the write log untouched — no
further reads or writes occur after the code byte is classified. -/
theorem readResponse_nack_no_further_reads (b : Bool) (rest : List ReadResult)
    (w : List (List Nat)) :
    readResponse ⟨b, .chunk [0x15] :: rest, w⟩ =
      (.err .ResponseNotAck, ⟨b, rest, w⟩) := rfl

/-- Claim C6: on a transport whose reads all return zero bytes
without error, both byte-accumulation read loops terminate and
surface the RetryExhausted error rather than iterating indefinitely. -/
theorem read_loops_retry_exhausted (reads : List ReadResult) (b : Bool)
    (w : List (List Nat)) (h : ∀ r ∈ reads, r = .chunk []) :
    (readRespCode ⟨b, reads, w⟩).1 = .err .RetryExhausted ∧
    (readRespData ⟨b, reads, w⟩).1 = .err .RetryExhausted := by
  constructor
  · obtain ⟨rest, hl⟩ := readRespCodeLoop_allEmpty (maxReadCount - 1) reads h
    unfold readRespCode
    rw [hl]
  · obtain ⟨rest, hl⟩ := readRespDataLoop_allEmpty (maxReadCount - 1) reads h
    unfold readRespData
    rw [hl]

/-- Witness for C6: a concrete all-zero-byte stream makes both read
operations surface RetryExhausted. -/
theorem read_loops_retry_exhausted_witness :
    (∀ r ∈ [ReadResult.chunk []], r = ReadResult.chunk []) ∧
    (readRespCode ⟨true, [.chunk []], []⟩).1 = .err .RetryExhausted ∧
    (readRespData ⟨true, [.chunk []], []⟩).1 = .err .RetryExhausted :=
  ⟨by simp, (read_loops_retry_exhausted [.chunk []] true [] (by simp)).1,
   (read_loops_retry_exhausted [.chunk []] true [] (by simp)).2⟩

/-- Claim C7: a frame not starting with `0x01 0x30` parses to
FormatError regardless of its checksum (the format check comes
first); a frame with a correct start whose trailing byte is not the
XOR of the preceding bytes parses to ChecksumError; the two error
kinds are distinct. -/
theorem parse_format_before_checksum :
    (∀ (b0 b1 : Nat) (rest : List Nat), b0 ≠ 0x01 ∨ b1 ≠ 0x30 →
      parseRespData (b0 :: b1 :: rest) = .err .FormatError) ∧
    (∀ rest : List Nat,
      (0x01 :: 0x30 :: rest).getLastD 0 ≠
        getChecksum ((0x01 :: 0x30 :: rest).dropLast) →
      parseRespData (0x01 :: 0x30 :: rest) = .err .ChecksumError) ∧
    MMError.FormatError ≠ MMError.ChecksumError := by
  refine ⟨?_, ?_, by decide⟩
  · intro b0 b1 rest h
    simp only [parseRespData, List.get?, ResponseStart, CommunicationIdentify]
    rw [if_pos h]
  · intro rest h
    simp only [parseRespData, List.get?, ResponseStart, CommunicationIdentify]
    rw [if_neg (by simp), if_pos h]

/-- Witness for C7: concrete frames exercising the FormatError and
ChecksumError branches. -/
theorem parse_format_before_checksum_witness :
    ((0 : Nat) ≠ 0x01 ∨ (0 : Nat) ≠ 0x30) ∧
    parseRespData [0, 0, 0x03] = .err .FormatError ∧
    (0x01 :: 0x30 :: [0x09, 0x03, 0]).getLastD 0 ≠
      getChecksum ((0x01 :: 0x30 :: [0x09, 0x03, 0]).dropLast) ∧
    parseRespData (0x01 :: 0x30 :: [0x09, 0x03, 0]) = .err .ChecksumError :=
  ⟨Or.inl (by decide), parse_format_before_checksum.1 0 0 [0x03] (Or.inl (by decide)),
   by decide, parse_format_before_checksum.2.1 [0x09, 0x03, 0] (by decide)⟩

/-- Claim C8: the checksum is deterministic, and replacing any single
byte of the input with a different value changes the checksum. -/
theorem getChecksum_deterministic_sensitive :
    (∀ B : List Nat, getChecksum B = getChecksum B) ∧
    (∀ (B : List Nat) (i b' : Nat), i < B.length → b' ≠ B.getD i 0 →
      getChecksum (B.set i b') ≠ getChecksum B) :=
  ⟨fun _ => rfl, getChecksum_set_ne⟩

/-- Witness for C8: altering the middle byte of `[4, 8, 15]` changes
the checksum. -/
theorem getChecksum_deterministic_sensitive_witness :
    getChecksum [4, 8, 15] = getChecksum [4, 8, 15] ∧
    1 < ([4, 8, 15] : List Nat).length ∧ (7 : Nat) ≠ [4, 8, 15].getD 1 0 ∧
    getChecksum ([4, 8, 15].set 1 7) ≠ getChecksum [4, 8, 15] :=
  ⟨getChecksum_deterministic_sensitive.1 [4, 8, 15], by decide, by decide,
   getChecksum_deterministic_sensitive.2 [4, 8, 15] 1 7 (by decide) (by decide)⟩

/-- Claim C9: the empty-payload frame `01 30 02 03 30` passes the
start-byte, checksum, TextStart and TextEnd validations (the last
three conjuncts exhibit them), yet `readRespData` neither returns a
payload nor an error: the final `buf[4:3]` slice is out of bounds,
a runtime panic. -/
theorem readRespData_accepted_frame_panics :
    readRespData ⟨true, [.chunk [0x01, 0x30, 0x02, 0x03, 0x30]], []⟩ =
      (.panic, ⟨true, [], []⟩) ∧
    parseRespData [0x01, 0x30, 0x02, 0x03, 0x30] = .panic ∧
    getChecksum [0x01, 0x30, 0x02, 0x03] = 0x30 ∧
    ([0x01, 0x30, 0x02, 0x03] : List Nat).getD 2 0 = TextStart ∧
    ([0x01, 0x30, 0x02, 0x03] : List Nat).getLastD 0 = TextEnd := by decide

/-- Claim C10: for accepted responses whose payloads are shorter than
the per-command shape (3 bytes for `Status`, 2 for `Dispense`, 1 for
`Purge`), the decoders index out of bounds — a runtime panic — rather
than returning an error; each payload is shown accepted by the full
response cycle first. -/
theorem decoders_unchecked_indexing_panics :
    (readResponse ⟨true, [.chunk [0x06],
        .chunk [0x01, 0x30, 0x02, 0x40, 0x20, 0x20, 0x20, 0x03, 0x50],
        .chunk [0x04]], []⟩).1 = .ok [0x20, 0x20, 0x20] ∧
    (Status ⟨true, [.chunk [0x06],
        .chunk [0x01, 0x30, 0x02, 0x40, 0x20, 0x20, 0x20, 0x03, 0x50],
        .chunk [0x04]], []⟩).1 = .panic ∧
    (readResponse ⟨true, [.chunk [0x06],
        .chunk [0x01, 0x30, 0x02, 0x40, 0x20, 0x20, 0x03, 0x70],
        .chunk [0x04]], []⟩).1 = .ok [0x20, 0x20] ∧
    (Dispense ⟨true, [.chunk [0x06],
        .chunk [0x01, 0x30, 0x02, 0x40, 0x20, 0x20, 0x03, 0x70],
        .chunk [0x04]], []⟩ 1).1 = .panic ∧
    (readResponse ⟨true, [.chunk [0x06],
        .chunk [0x01, 0x30, 0x02, 0x40, 0x20, 0x03, 0x50],
        .chunk [0x04]], []⟩).1 = .ok [0x20] ∧
    (Purge ⟨true, [.chunk [0x06],
        .chunk [0x01, 0x30, 0x02, 0x40, 0x20, 0x03, 0x50],
        .chunk [0x04]], []⟩).1 = .panic := by decide
